import Mathlib

/-!
Shallow embedding of the bracket-scheduling core of the `tournaments`
repository, and verification of its specification claims.

Embedded source:
* `DoubleEliminationMatchStrategy` (winners/losers bracket construction,
  loser-path linking, grand final, `GenerateMatches`),
* `MatchDelegate` (`ProcessTeamAddition`, `CreateTournamentMatches`).

C++ `std::vector` indexing with `operator[]` is unchecked; an out-of-bounds
index is undefined behaviour.  The embedding makes every such indexing
operation explicit and total by returning `Option`: an in-bounds access
yields `some`, an out-of-bounds access yields `none`, and a function that
performs an out-of-bounds access returns `none` as a whole.
-/

namespace Tournaments

/-- `domain::BracketType` — the two bracket kinds. -/
inductive BracketType where
  | WINNERS
  | LOSERS
deriving DecidableEq, Repr

/-- `domain::MatchStatus` — only `PENDING` is produced by this core. -/
inductive MatchStatus where
  | PENDING
deriving DecidableEq, Repr

/-- `domain::Match`.  The header `domain/Match.hpp` is not among the
provided sources; the fields are taken from their uses in
`DoubleEliminationMatchStrategy`, and (modelled from the spec §3) the
optional back-references `nextMatchWinnerId` / `nextMatchLoserId` default
to the empty string and the two grand-final flags default to `false` for a
default-constructed match. -/
structure Match where
  id : String := ""
  tournamentId : String := ""
  groupId : String := ""
  bracket : BracketType := BracketType.WINNERS
  roundNumber : Nat := 0
  matchNumberInRound : Nat := 0
  status : MatchStatus := MatchStatus.PENDING
  nextMatchWinnerId : String := ""
  nextMatchLoserId : String := ""
  isGrandFinal : Bool := false
  isBracketReset : Bool := false
deriving DecidableEq, Repr

/-- Checked read of `v[i]` (C++ `operator[]` is unchecked; out of bounds is
undefined behaviour, embedded as `none`). -/
def vread (v : List Match) (i : Nat) : Option Match :=
  v.get? i

/-- Checked write `v[i] = f v[i]`: `none` when `i` is out of bounds. -/
def vwrite (v : List Match) (i : Nat) (f : Match → Match) : Option (List Match) :=
  match v.get? i with
  | some m => some (v.set i (f m))
  | none => none

/-- `DoubleEliminationMatchStrategy::GenerateMatchId`:
`tournamentId + "_" + bracketPrefix + "R" + round + "M" + matchNumber`. -/
def GenerateMatchId (tournamentId : String) (bracket : BracketType)
    (round : Nat) (matchNumber : Nat) : String :=
  let bracketPrefix := if bracket = BracketType.WINNERS then "W" else "L"
  tournamentId ++ "_" ++ bracketPrefix ++ "R" ++ toString round ++ "M" ++ toString matchNumber

/-- Round sizes of the winners bracket, as in `CreateWinnersBracket`. -/
def winnersRoundSizes : List Nat := [16, 8, 4, 2, 1]

/-- Round sizes of the losers bracket, as in `CreateLosersBracket`
(`{8, 8, 4, 4, 2, 2, 1, 1, 1}`). -/
def losersRoundSizes : List Nat := [8, 8, 4, 4, 2, 2, 1, 1, 1]

/-- The doubly-nested loop shared by `CreateWinnersBracket` and
`CreateLosersBracket`: for each `roundIdx`, emit `roundSizes[roundIdx]`
matches, setting `nextMatchWinnerId` for every round but the last. -/
def CreateBracket (tournamentId groupId : String) (bracket : BracketType)
    (roundSizes : List Nat) : List Match :=
  (List.range roundSizes.length).flatMap fun roundIdx =>
    let roundNumber := roundIdx + 1
    let matchesInRound := roundSizes.getD roundIdx 0
    (List.range matchesInRound).map fun matchNum =>
      { id := GenerateMatchId tournamentId bracket roundNumber matchNum
        tournamentId := tournamentId
        groupId := groupId
        bracket := bracket
        roundNumber := roundNumber
        matchNumberInRound := matchNum
        status := MatchStatus.PENDING
        nextMatchWinnerId :=
          if roundIdx < roundSizes.length - 1 then
            GenerateMatchId tournamentId bracket (roundNumber + 1) (matchNum / 2)
          else ""
        nextMatchLoserId := ""
        isGrandFinal := false
        isBracketReset := false }

/-- `DoubleEliminationMatchStrategy::CreateWinnersBracket`. -/
def CreateWinnersBracket (tournamentId groupId : String) : List Match :=
  CreateBracket tournamentId groupId BracketType.WINNERS winnersRoundSizes

/-- `DoubleEliminationMatchStrategy::CreateLosersBracket`. -/
def CreateLosersBracket (tournamentId groupId : String) : List Match :=
  CreateBracket tournamentId groupId BracketType.LOSERS losersRoundSizes

/-- One assignment `winnersMatches[wIdx].NextMatchLoserId() =
losersMatches[lIdx].Id()` of `LinkBracketsLoserPaths`. -/
def linkLoser (losersMatches : List Match) (ws : List Match)
    (wIdx lIdx : Nat) : Option (List Match) := do
  let lm ← vread losersMatches lIdx
  vwrite ws wIdx (fun m => { m with nextMatchLoserId := lm.id })

/-- `DoubleEliminationMatchStrategy::LinkBracketsLoserPaths`, performing the
four loops and the final winners-final assignment in order. -/
def LinkBracketsLoserPaths (winnersMatches losersMatches : List Match) :
    Option (List Match) := do
  -- Winners R1 (16 matches) → Losers R1: winnersMatches[i] ← losersMatches[i / 2]
  let ws ← (List.range 16).foldlM
    (fun ws i => linkLoser losersMatches ws i (i / 2)) winnersMatches
  -- Winners R2 (8 matches): winnersMatches[16 + i] ← losersMatches[8 + i]
  let ws ← (List.range 8).foldlM
    (fun ws i => linkLoser losersMatches ws (16 + i) (8 + i)) ws
  -- Winners R3 (4 matches): winnersMatches[24 + i] ← losersMatches[16 + i]
  let ws ← (List.range 4).foldlM
    (fun ws i => linkLoser losersMatches ws (24 + i) (16 + i)) ws
  -- Winners R4 (2 matches): winnersMatches[28 + i] ← losersMatches[24 + i]
  let ws ← (List.range 2).foldlM
    (fun ws i => linkLoser losersMatches ws (28 + i) (24 + i)) ws
  -- Winners R5 (winners final): winnersMatches[30] ← losersMatches[32]
  linkLoser losersMatches ws 30 32

/-- `DoubleEliminationMatchStrategy::CreateGrandFinal`: grand final
(round 6) and bracket reset (round 7), with GF1's winner advancing to GF2. -/
def CreateGrandFinal (tournamentId groupId : String) : List Match :=
  let grandFinal1 : Match :=
    { id := GenerateMatchId tournamentId BracketType.WINNERS 6 0
      tournamentId := tournamentId
      groupId := groupId
      bracket := BracketType.WINNERS
      roundNumber := 6
      matchNumberInRound := 0
      status := MatchStatus.PENDING
      isGrandFinal := true
      isBracketReset := false }
  let grandFinal2 : Match :=
    { id := GenerateMatchId tournamentId BracketType.WINNERS 7 0
      tournamentId := tournamentId
      groupId := groupId
      bracket := BracketType.WINNERS
      roundNumber := 7
      matchNumberInRound := 0
      status := MatchStatus.PENDING
      isGrandFinal := true
      isBracketReset := true }
  let grandFinal1 := { grandFinal1 with nextMatchWinnerId := grandFinal2.id }
  [grandFinal1, grandFinal2]

/-- `DoubleEliminationMatchStrategy::GenerateMatches`: winners bracket,
losers bracket, loser-path linking, grand final, the two finals-to-grand-
final assignments, and the concatenation of the three blocks. -/
def GenerateMatches (tournamentId groupId : String) : Option (List Match) := do
  let winnersMatches := CreateWinnersBracket tournamentId groupId
  let losersMatches := CreateLosersBracket tournamentId groupId
  let winnersMatches ← LinkBracketsLoserPaths winnersMatches losersMatches
  let grandFinalMatches := CreateGrandFinal tournamentId groupId
  let gf1 ← vread grandFinalMatches 0
  -- winnersMatches[30].NextMatchWinnerId() = grandFinalMatches[0].Id()
  let winnersMatches ← vwrite winnersMatches 30
    (fun m => { m with nextMatchWinnerId := gf1.id })
  -- losersMatches[32].NextMatchWinnerId() = grandFinalMatches[0].Id()
  let losersMatches ← vwrite losersMatches 32
    (fun m => { m with nextMatchWinnerId := gf1.id })
  pure (winnersMatches ++ losersMatches ++ grandFinalMatches)

/-- The group resolved by `GroupRepository::FindByTournamentIdAndGroupId`.
`MatchDelegate` only ever reads `group->Teams().size()`, so the group is
embedded by that team count. -/
structure Group where
  teamCount : Nat
deriving DecidableEq, Repr

/-- `domain::TeamAddEvent` — the roster-change notification payload, as
used by `MatchDelegate::ProcessTeamAddition`. -/
structure TeamAddEvent where
  tournamentId : String
  groupId : String
deriving DecidableEq, Repr

/-- One `std::println` message emitted by `MatchDelegate`, one constructor
per call site, carrying the formatted arguments. -/
inductive LogMsg where
  /-- "Group not found for tournament: {}, group: {}" -/
  | groupNotFound (tournamentId groupId : String)
  /-- "Tournament {} has {} teams" -/
  | teamsCount (tournamentId : String) (n : Nat)
  /-- "Matches already exist for tournament: {}" -/
  | matchesAlreadyExist (tournamentId : String)
  /-- "Creating matches for tournament: {}" -/
  | creatingMatches (tournamentId : String)
  /-- "Successfully created 63 matches for tournament: {}" -/
  | successfullyCreatedMatches (tournamentId : String)
  /-- "Waiting for more teams. Current: {}, Required: 32" -/
  | waitingForTeams (current : Nat)
  /-- "ERROR: Expected 63 matches, generated {}" -/
  | errorGeneratedCount (n : Nat)
  /-- "ERROR: Expected to create 63 matches, created {}" -/
  | errorCreatedCount (n : Nat)
  /-- "Successfully saved 63 matches to database" -/
  | successfullySaved
deriving DecidableEq, Repr

/-- Whether a message is one of the delegate's "ERROR: ..." reports. -/
def LogMsg.isError : LogMsg → Bool
  | .errorGeneratedCount _ => true
  | .errorCreatedCount _ => true
  | _ => false

/-- `MatchDelegate`'s collaborators: `GroupRepository` (group lookup),
`IMatchRepository` (existence check and bulk create), and the match
strategy.  The delegate's concrete strategy member is
`DoubleEliminationMatchStrategy`, whose embedded `GenerateMatches` fails on
every input (see `generateMatches_eq_none`); the delegate logic itself is
verified over the strategy as an abstract collaborator, as the spec's
component decomposition prescribes. -/
structure Collaborators where
  /-- `GroupRepository::FindByTournamentIdAndGroupId` (nullptr ↦ `none`). -/
  findGroup : String → String → Option Group
  /-- `IMatchRepository::MatchesExistForTournament`. -/
  matchesExist : String → String → Bool
  /-- `IMatchRepository::CreateBulk`, returning the created ids. -/
  createBulk : List Match → List String
  /-- `DoubleEliminationMatchStrategy::GenerateMatches`, abstracted. -/
  generate : String → String → List Match

/-- The observable outcome of a delegate run: the log messages in emission
order, the `(tournamentId, groupId)` arguments of each strategy
invocation, and the argument of each `CreateBulk` invocation. -/
structure RunResult where
  logs : List LogMsg
  generateCalls : List (String × String)
  bulkCalls : List (List Match)
deriving DecidableEq, Repr

/-- `MatchDelegate::CreateTournamentMatches`: generate, check the count is
63, bulk-persist, check 63 ids were created.  (The surrounding
`try`/`catch` only re-raises collaborator exceptions, which the pure
collaborator model does not produce.) -/
def CreateTournamentMatches (c : Collaborators)
    (tournamentId groupId : String) : RunResult :=
  let matchList := c.generate tournamentId groupId
  if matchList.length ≠ 63 then
    { logs := [LogMsg.errorGeneratedCount matchList.length]
      generateCalls := [(tournamentId, groupId)]
      bulkCalls := [] }
  else
    let createdIds := c.createBulk matchList
    if createdIds.length ≠ 63 then
      { logs := [LogMsg.errorCreatedCount createdIds.length]
        generateCalls := [(tournamentId, groupId)]
        bulkCalls := [matchList] }
    else
      { logs := [LogMsg.successfullySaved]
        generateCalls := [(tournamentId, groupId)]
        bulkCalls := [matchList] }

/-- `MatchDelegate::ProcessTeamAddition`: resolve the group, report the
team count, and when the roster is at 32 with no existing matches, run
`CreateTournamentMatches` and then report
"Successfully created 63 matches for tournament: {}". -/
def ProcessTeamAddition (c : Collaborators) (ev : TeamAddEvent) : RunResult :=
  match c.findGroup ev.tournamentId ev.groupId with
  | none =>
    { logs := [LogMsg.groupNotFound ev.tournamentId ev.groupId]
      generateCalls := []
      bulkCalls := [] }
  | some group =>
    let counted := [LogMsg.teamsCount ev.tournamentId group.teamCount]
    if group.teamCount = 32 then
      if c.matchesExist ev.tournamentId ev.groupId then
        { logs := counted ++ [LogMsg.matchesAlreadyExist ev.tournamentId]
          generateCalls := []
          bulkCalls := [] }
      else
        let inner := CreateTournamentMatches c ev.tournamentId ev.groupId
        { logs := counted ++ [LogMsg.creatingMatches ev.tournamentId]
            ++ inner.logs ++ [LogMsg.successfullyCreatedMatches ev.tournamentId]
          generateCalls := inner.generateCalls
          bulkCalls := inner.bulkCalls }
    else
      { logs := counted ++ [LogMsg.waitingForTeams group.teamCount]
        generateCalls := []
        bulkCalls := [] }

end Tournaments

namespace Tournaments

/-- An `Option` bind whose continuation is constantly `none` is `none`,
whether or not the first computation succeeds. -/
theorem bind_none_of {α β : Type} (x : Option α) {f : α → Option β}
    (h : ∀ a, f a = none) : x >>= f = none := by
  cases x <;> simp [h]

/-- The losers bracket holds `8+8+4+4+2+2+1+1+1 = 31` matches. -/
theorem createLosersBracket_length (t g : String) :
    (CreateLosersBracket t g).length = 31 := rfl

/-- The winners bracket holds `16+8+4+2+1 = 31` matches. -/
theorem createWinnersBracket_length (t g : String) :
    (CreateWinnersBracket t g).length = 31 := rfl

/-- Index 32 is out of bounds for the 31-element losers bracket. -/
theorem createLosersBracket_get_32 (t g : String) :
    (CreateLosersBracket t g).get? 32 = none := rfl

/-- The winners-final link `losersMatches[32]` fails: out-of-bounds read. -/
theorem linkLoser_32_eq_none (t g : String) (ws : List Match) :
    linkLoser (CreateLosersBracket t g) ws 30 32 = none := by
  show (CreateLosersBracket t g).get? 32 >>= _ = none
  rw [createLosersBracket_get_32]
  rfl

/-- `LinkBracketsLoserPaths` always fails on the code's own losers bracket:
its final assignment reads `losersMatches[32]`, out of bounds. -/
theorem linkBracketsLoserPaths_eq_none (w : List Match) (t g : String) :
    LinkBracketsLoserPaths w (CreateLosersBracket t g) = none := by
  unfold LinkBracketsLoserPaths
  apply bind_none_of; intro ws1
  apply bind_none_of; intro ws2
  apply bind_none_of; intro ws3
  apply bind_none_of; intro ws4
  exact linkLoser_32_eq_none t g ws4

/-- A failed first computation makes the whole `Option` bind fail. -/
theorem bind_none_left {α β : Type} {x : Option α} (f : α → Option β)
    (h : x = none) : x >>= f = none := by
  subst h; rfl

/-- `GenerateMatches` fails on every input: the loser-path linking reads
`losersMatches[32]` out of bounds. -/
theorem generateMatches_eq_none (t g : String) :
    GenerateMatches t g = none :=
  bind_none_left _ (linkBracketsLoserPaths_eq_none (CreateWinnersBracket t g) t g)

/-- Writing through index 32 of the losers bracket fails for any update
function: the bracket has 31 elements. -/
theorem vwrite_losers_32_eq_none (t g : String) (f : Match → Match) :
    vwrite (CreateLosersBracket t g) 32 f = none := by
  unfold vwrite
  rw [createLosersBracket_get_32]

/-- Claim C1: `GenerateMatches` is supposed to return 63 matches made of 31
winners, 30 losers and 2 grand-final matches.  In fact the losers round
sizes `{8,8,4,4,2,2,1,1,1}` sum to 31, and generation aborts on the
out-of-bounds read `losersMatches[32]`, returning no match list at all. -/
theorem c1_losers_bracket_31_and_generation_fails :
    (CreateLosersBracket "T1" "G1").length = 31 ∧
    (CreateWinnersBracket "T1" "G1").length = 31 ∧
    GenerateMatches "T1" "G1" = none :=
  ⟨createLosersBracket_length "T1" "G1", createWinnersBracket_length "T1" "G1",
    generateMatches_eq_none "T1" "G1"⟩

/-- Claim C2: the loser-path offsets are supposed to land in losers rounds
4, 6 and 8.  In the flat losers array actually built (round starts
0, 8, 16, 20, 24, 26, 28, 29, 30), offset `16+i` is round 3 match `i`,
offset `24+i` is round 5 match `i`, and offset 32 is out of bounds. -/
theorem c2_loser_path_offsets_hit_rounds_3_5_and_out_of_bounds (t g : String) :
    ((CreateLosersBracket t g).get? 16).map
      (fun m => (m.roundNumber, m.matchNumberInRound)) = some (3, 0) ∧
    ((CreateLosersBracket t g).get? 17).map
      (fun m => (m.roundNumber, m.matchNumberInRound)) = some (3, 1) ∧
    ((CreateLosersBracket t g).get? 18).map
      (fun m => (m.roundNumber, m.matchNumberInRound)) = some (3, 2) ∧
    ((CreateLosersBracket t g).get? 19).map
      (fun m => (m.roundNumber, m.matchNumberInRound)) = some (3, 3) ∧
    ((CreateLosersBracket t g).get? 24).map
      (fun m => (m.roundNumber, m.matchNumberInRound)) = some (5, 0) ∧
    ((CreateLosersBracket t g).get? 25).map
      (fun m => (m.roundNumber, m.matchNumberInRound)) = some (5, 1) ∧
    (CreateLosersBracket t g).get? 32 = none :=
  ⟨rfl, rfl, rfl, rfl, rfl, rfl, createLosersBracket_get_32 t g⟩

/-- Claim C3: every vector index used during `GenerateMatches` is supposed
to be in bounds, making the total embedding defined on all inputs.  In
fact the losers vector has 31 elements, index 32 reads past its end, and
`GenerateMatches` is `none` on every input. -/
theorem c3_index_32_out_of_bounds_so_generation_undefined (t g : String) :
    (CreateLosersBracket t g).length = 31 ∧
    (CreateLosersBracket t g).get? 32 = none ∧
    GenerateMatches t g = none :=
  ⟨createLosersBracket_length t g, createLosersBracket_get_32 t g,
    generateMatches_eq_none t g⟩

/-- Claim C4: every winners match is supposed to end up with a loser
pointer into the losers bracket.  The linking pass itself fails on its
final assignment (the winners final reads `losersMatches[32]`), so no
linked match set is ever produced. -/
theorem c4_loser_linking_fails_before_any_output (t g : String) :
    LinkBracketsLoserPaths (CreateWinnersBracket t g) (CreateLosersBracket t g)
      = none ∧
    GenerateMatches t g = none :=
  ⟨linkBracketsLoserPaths_eq_none (CreateWinnersBracket t g) t g,
    generateMatches_eq_none t g⟩

/-- Claim C5: the two grand-final matches are built as claimed (round 6
not-reset and round 7 reset, both `WINNERS`, with GF1's winner advancing
to GF2), but the losers-final-to-grand-final link writes
`losersMatches[32]`, out of bounds, so the output set never exists. -/
theorem c5_grand_final_built_but_losers_final_link_out_of_bounds (t g : String) :
    (CreateGrandFinal t g).map
      (fun m => (m.roundNumber, m.isGrandFinal, m.isBracketReset, m.bracket))
      = [(6, true, false, BracketType.WINNERS),
         (7, true, true, BracketType.WINNERS)] ∧
    ((CreateGrandFinal t g).get? 0).map Match.nextMatchWinnerId
      = ((CreateGrandFinal t g).get? 1).map Match.id ∧
    (∀ f : Match → Match, vwrite (CreateLosersBracket t g) 32 f = none) ∧
    GenerateMatches t g = none :=
  ⟨rfl, rfl, vwrite_losers_32_eq_none t g, generateMatches_eq_none t g⟩

/-- Claim C6: the two brackets are built with the claimed round sizes and
`m/2` advancement, but `GenerateMatches` aborts on the out-of-bounds read
`losersMatches[32]`, so no output set with these properties is returned. -/
theorem c6_round_structure_internal_but_no_output (t g : String) :
    (CreateWinnersBracket t g).map Match.roundNumber
      = List.replicate 16 1 ++ List.replicate 8 2 ++ List.replicate 4 3
        ++ List.replicate 2 4 ++ List.replicate 1 5 ∧
    (CreateLosersBracket t g).map Match.roundNumber
      = List.replicate 8 1 ++ List.replicate 8 2 ++ List.replicate 4 3
        ++ List.replicate 4 4 ++ List.replicate 2 5 ++ List.replicate 2 6
        ++ List.replicate 1 7 ++ List.replicate 1 8 ++ List.replicate 1 9 ∧
    (CreateWinnersBracket t g).map Match.nextMatchWinnerId
      = (CreateWinnersBracket t g).map (fun m =>
          if m.roundNumber < 5 then
            GenerateMatchId t BracketType.WINNERS (m.roundNumber + 1)
              (m.matchNumberInRound / 2)
          else "") ∧
    (CreateLosersBracket t g).map Match.nextMatchWinnerId
      = (CreateLosersBracket t g).map (fun m =>
          if m.roundNumber < 9 then
            GenerateMatchId t BracketType.LOSERS (m.roundNumber + 1)
              (m.matchNumberInRound / 2)
          else "") ∧
    GenerateMatches t g = none :=
  ⟨rfl, rfl, rfl, rfl, generateMatches_eq_none t g⟩

/-- A collaborator assembly for the persistence-mismatch scenario: the
group is found with 32 teams, no matches exist yet, the strategy yields 63
matches, and `CreateBulk` reports only 62 created ids. -/
def mismatchEnv : Collaborators where
  findGroup := fun _ _ => some { teamCount := 32 }
  matchesExist := fun _ _ => false
  createBulk := fun _ => List.replicate 62 "created"
  generate := fun _ _ => List.replicate 63 {}

/-- Claim C7: on a created-id count mismatch the operation is supposed to
report an error and not claim success.  `CreateTournamentMatches` does log
the error, but it returns normally, and `ProcessTeamAddition` then
unconditionally logs "Successfully created 63 matches for tournament" —
the run claims success anyway. -/
theorem c7_persistence_mismatch_still_claims_success :
    (ProcessTeamAddition mismatchEnv ⟨"T1", "G1"⟩).logs
      = [LogMsg.teamsCount "T1" 32, LogMsg.creatingMatches "T1",
         LogMsg.errorCreatedCount 62,
         LogMsg.successfullyCreatedMatches "T1"] ∧
    LogMsg.errorCreatedCount 62 ∈ (ProcessTeamAddition mismatchEnv ⟨"T1", "G1"⟩).logs ∧
    LogMsg.successfullyCreatedMatches "T1"
      ∈ (ProcessTeamAddition mismatchEnv ⟨"T1", "G1"⟩).logs ∧
    LogMsg.successfullySaved ∉ (ProcessTeamAddition mismatchEnv ⟨"T1", "G1"⟩).logs := by
  refine ⟨rfl, ?_, ?_, ?_⟩ <;>
    simp [ProcessTeamAddition, CreateTournamentMatches, mismatchEnv]

/-- Claim C8: with the roster at 32 but matches already existing, the
delegate neither invokes the strategy nor `CreateBulk`, and logs no error:
the idempotency guard short-circuits the run. -/
theorem c8_existing_matches_idempotent_noop (c : Collaborators)
    (ev : TeamAddEvent) (grp : Group)
    (hfind : c.findGroup ev.tournamentId ev.groupId = some grp)
    (hcount : grp.teamCount = 32)
    (hexists : c.matchesExist ev.tournamentId ev.groupId = true) :
    (ProcessTeamAddition c ev).generateCalls = [] ∧
    (ProcessTeamAddition c ev).bulkCalls = [] ∧
    (ProcessTeamAddition c ev).logs
      = [LogMsg.teamsCount ev.tournamentId 32,
         LogMsg.matchesAlreadyExist ev.tournamentId] ∧
    ∀ m ∈ (ProcessTeamAddition c ev).logs, m.isError = false := by
  simp [ProcessTeamAddition, hfind, hcount, hexists, LogMsg.isError]

/-- A collaborator assembly in which matches already exist for the group
and the roster is at 32 teams. -/
def replayEnv : Collaborators where
  findGroup := fun _ _ => some { teamCount := 32 }
  matchesExist := fun _ _ => true
  createBulk := fun _ => []
  generate := fun _ _ => []

/-- Witness for claim C8 at a concrete collaborator assembly and event. -/
theorem c8_existing_matches_idempotent_noop_witness :
    replayEnv.findGroup "T1" "G1" = some { teamCount := 32 } ∧
    (⟨32⟩ : Group).teamCount = 32 ∧
    replayEnv.matchesExist "T1" "G1" = true ∧
    ((ProcessTeamAddition replayEnv ⟨"T1", "G1"⟩).generateCalls = [] ∧
      (ProcessTeamAddition replayEnv ⟨"T1", "G1"⟩).bulkCalls = [] ∧
      (ProcessTeamAddition replayEnv ⟨"T1", "G1"⟩).logs
        = [LogMsg.teamsCount "T1" 32, LogMsg.matchesAlreadyExist "T1"] ∧
      ∀ m ∈ (ProcessTeamAddition replayEnv ⟨"T1", "G1"⟩).logs,
        m.isError = false) :=
  ⟨rfl, rfl, rfl,
    c8_existing_matches_idempotent_noop replayEnv ⟨"T1", "G1"⟩ ⟨32⟩ rfl rfl rfl⟩

/-- Claim C9: with the group present and a team count other than 32, the
delegate logs the waiting message and returns with no strategy call, no
persistence call and no error. -/
theorem c9_incomplete_roster_waits (c : Collaborators)
    (ev : TeamAddEvent) (grp : Group)
    (hfind : c.findGroup ev.tournamentId ev.groupId = some grp)
    (hcount : grp.teamCount ≠ 32) :
    (ProcessTeamAddition c ev).generateCalls = [] ∧
    (ProcessTeamAddition c ev).bulkCalls = [] ∧
    LogMsg.waitingForTeams grp.teamCount ∈ (ProcessTeamAddition c ev).logs ∧
    ∀ m ∈ (ProcessTeamAddition c ev).logs, m.isError = false := by
  simp [ProcessTeamAddition, hfind, hcount, LogMsg.isError]

/-- A collaborator assembly in which the group is found with 31 teams. -/
def waitingEnv : Collaborators where
  findGroup := fun _ _ => some { teamCount := 31 }
  matchesExist := fun _ _ => false
  createBulk := fun _ => []
  generate := fun _ _ => []

/-- Witness for claim C9 at a concrete collaborator assembly and event. -/
theorem c9_incomplete_roster_waits_witness :
    waitingEnv.findGroup "T1" "G1" = some { teamCount := 31 } ∧
    (⟨31⟩ : Group).teamCount ≠ 32 ∧
    ((ProcessTeamAddition waitingEnv ⟨"T1", "G1"⟩).generateCalls = [] ∧
      (ProcessTeamAddition waitingEnv ⟨"T1", "G1"⟩).bulkCalls = [] ∧
      LogMsg.waitingForTeams 31 ∈ (ProcessTeamAddition waitingEnv ⟨"T1", "G1"⟩).logs ∧
      ∀ m ∈ (ProcessTeamAddition waitingEnv ⟨"T1", "G1"⟩).logs,
        m.isError = false) :=
  ⟨rfl, by decide,
    c9_incomplete_roster_waits waitingEnv ⟨"T1", "G1"⟩ ⟨31⟩ rfl (by decide)⟩

/-- Claim C10: match ids never depend on the `groupId` argument — the id
projection of every construction stage, and of `GenerateMatches` itself,
is identical across two different groups of the same tournament. -/
theorem c10_match_ids_independent_of_groupId (t g1 g2 : String) :
    (CreateWinnersBracket t g1).map Match.id
      = (CreateWinnersBracket t g2).map Match.id ∧
    (CreateLosersBracket t g1).map Match.id
      = (CreateLosersBracket t g2).map Match.id ∧
    (CreateGrandFinal t g1).map Match.id
      = (CreateGrandFinal t g2).map Match.id ∧
    (GenerateMatches t g1).map (List.map Match.id)
      = (GenerateMatches t g2).map (List.map Match.id) := by
  refine ⟨rfl, rfl, rfl, ?_⟩
  rw [generateMatches_eq_none, generateMatches_eq_none]

end Tournaments
